import Mathlib

/-!
Shallow embedding of the `dhcpv6-parser` Rust crate (sources:
`src/utils.rs`, `src/structs/message_types.rs`, `src/structs/header.rs`,
`src/structs/options.rs`).

Byte buffers are `List Nat` (each element a byte value).  The nom 5
combinators used by the crate (`be_u8` .. `be_u128`, `take`, `verify`,
`map_opt`, `many0`, `many_m_n`, `tuple`) are modelled directly; `tuple`
is inlined as sequential binds, which is exactly what it does.

Outcomes of a parser are modelled by `PResult`:
  * `ok rest value`  — Rust `Ok((rest, value))`;
  * `error kind`     — Rust `Err(nom::Err::Error((_, kind)))` (we keep the
    nom `ErrorKind`, dropping the input position payload);
  * `fatal`          — a Rust panic / process abort (out-of-bounds slice
    index such as `rest[0]`, or a failed `assert!`).  The crate uses the
    "complete" nom parsers, so `Err::Incomplete` never occurs.

The spec's error names map onto nom's kinds as produced by this code:
`Truncated` = `Eof`, `InvalidMessageType` = `MapOpt`,
`UnknownOptionCode` = `Switch`, `LengthConstraintViolation` and
`InvalidText` = `Verify`.
-/

namespace DHCPv6

/-- nom 5 `ErrorKind` values this crate can produce. -/
inductive ErrorKind where
  | Eof
  | Verify
  | MapOpt
  | Switch
  | Many0
  | ManyMN
  deriving DecidableEq, Repr

/-- Result of running a parser on a byte buffer: success with the
unconsumed rest, a recoverable nom error, or a runtime panic (`fatal`). -/
inductive PResult (α : Type) where
  | ok (rest : List Nat) (value : α)
  | error (kind : ErrorKind)
  | fatal
  deriving DecidableEq, Repr

/-- Sequencing of parsers: errors and panics propagate. -/
def PResult.bind {α β : Type} : PResult α → (List Nat → α → PResult β) → PResult β
  | .ok rest v, f => f rest v
  | .error k, _ => .error k
  | .fatal, _ => .fatal

/-- nom `be_u8` (complete): one byte, big-endian. -/
def be_u8 : List Nat → PResult Nat
  | b :: rest => .ok rest b
  | [] => .error .Eof

/-- nom `be_u16` (complete): two bytes, big-endian. -/
def be_u16 : List Nat → PResult Nat
  | b0 :: b1 :: rest => .ok rest (b0 * 256 + b1)
  | _ => .error .Eof

/-- nom `be_u24` (complete): three bytes, big-endian. -/
def be_u24 : List Nat → PResult Nat
  | b0 :: b1 :: b2 :: rest => .ok rest ((b0 * 256 + b1) * 256 + b2)
  | _ => .error .Eof

/-- nom `be_u32` (complete): four bytes, big-endian. -/
def be_u32 : List Nat → PResult Nat
  | b0 :: b1 :: b2 :: b3 :: rest => .ok rest (((b0 * 256 + b1) * 256 + b2) * 256 + b3)
  | _ => .error .Eof

/-- nom `be_u64` (complete): eight bytes, big-endian. -/
def be_u64 : List Nat → PResult Nat
  | b0 :: b1 :: b2 :: b3 :: b4 :: b5 :: b6 :: b7 :: rest =>
      .ok rest (((((((b0 * 256 + b1) * 256 + b2) * 256 + b3) * 256 + b4)
        * 256 + b5) * 256 + b6) * 256 + b7)
  | _ => .error .Eof

/-- nom `be_u128` (complete): sixteen bytes, big-endian. -/
def be_u128 : List Nat → PResult Nat
  | b0 :: b1 :: b2 :: b3 :: b4 :: b5 :: b6 :: b7 ::
    b8 :: b9 :: b10 :: b11 :: b12 :: b13 :: b14 :: b15 :: rest =>
      .ok rest (((((((((((((((b0 * 256 + b1) * 256 + b2) * 256 + b3) * 256 + b4)
        * 256 + b5) * 256 + b6) * 256 + b7) * 256 + b8) * 256 + b9) * 256 + b10)
        * 256 + b11) * 256 + b12) * 256 + b13) * 256 + b14) * 256 + b15)
  | _ => .error .Eof

/-- nom `take(count)` (complete): `count` raw bytes, or `Eof`. -/
def take (count : Nat) (input : List Nat) : PResult (List Nat) :=
  if count ≤ input.length then .ok (input.drop count) (input.take count)
  else .error .Eof

/-- nom `verify(first, second)`: run `first`, then check the predicate. -/
def verify {α : Type} (first : List Nat → PResult α) (second : α → Bool)
    (input : List Nat) : PResult α :=
  match first input with
  | .ok rest v => if second v then .ok rest v else .error .Verify
  | .error k => .error k
  | .fatal => .fatal

/-- nom `map_opt(first, second)`: run `first`, then refine through an
`Option`-returning function, failing with `MapOpt` on `none`. -/
def map_opt {α β : Type} (first : List Nat → PResult α) (second : α → Option β)
    (input : List Nat) : PResult β :=
  match first input with
  | .ok rest v =>
      match second v with
      | some w => .ok rest w
      | none => .error .MapOpt
  | .error k => .error k
  | .fatal => .fatal

/-- Loop body of nom `many0`, with explicit fuel.  nom's loop runs the
sub-parser until it fails with a recoverable error, erroring with `Many0`
if the sub-parser succeeds without consuming.  Every successful step of
the sub-parsers used here consumes at least one byte, so fuel
`input.length + 1` (as supplied by `many0` below) never runs out. -/
def many0Go {α : Type} (f : List Nat → PResult α) :
    Nat → List Nat → List α → PResult (List α)
  | 0, input, acc => .ok input acc.reverse
  | fuel + 1, input, acc =>
      match f input with
      | .error _ => .ok input acc.reverse
      | .fatal => .fatal
      | .ok rest v =>
          if rest.length = input.length then .error .Many0
          else many0Go f fuel rest (v :: acc)

/-- nom `many0(f)`: apply `f` repeatedly, collecting results in order,
stopping at the first recoverable error. -/
def many0 {α : Type} (f : List Nat → PResult α) (input : List Nat) : PResult (List α) :=
  many0Go f (input.length + 1) input []

/-- nom `many_m_n(count, count, be_u16)` as used by the Option Request
decoder: exactly `count` big-endian 16-bit reads, failing with `ManyMN`
if fewer are available (no read ever gets stuck consuming nothing). -/
def many_m_n_be_u16 : Nat → List Nat → PResult (List Nat)
  | 0, input => .ok input []
  | count + 1, input =>
      match be_u16 input with
      | .ok rest v =>
          match many_m_n_be_u16 count rest with
          | .ok rest2 vs => .ok rest2 (v :: vs)
          | .error _ => .error .ManyMN
          | .fatal => .fatal
      | _ => .error .ManyMN

/-! ### `src/structs/message_types.rs` -/

/-- `DHCPv6MessageType` from `message_types.rs`, discriminants 1..13. -/
inductive DHCPv6MessageType where
  | Solicit
  | Advertise
  | Request
  | Confirm
  | Renew
  | Rebind
  | Reply
  | Release
  | Decline
  | Reconfigure
  | InformationRequest
  | RelayForw
  | RelayRepl
  deriving DecidableEq, Repr

/-- `DHCPv6MessageType::from_u8`, derived by `Primitive` from the
`#[repr(u8)]` discriminants: matches exactly the values 1..13. -/
def DHCPv6MessageType.from_u8 : Nat → Option DHCPv6MessageType
  | 1 => some .Solicit
  | 2 => some .Advertise
  | 3 => some .Request
  | 4 => some .Confirm
  | 5 => some .Renew
  | 6 => some .Rebind
  | 7 => some .Reply
  | 8 => some .Release
  | 9 => some .Decline
  | 10 => some .Reconfigure
  | 11 => some .InformationRequest
  | 12 => some .RelayForw
  | 13 => some .RelayRepl
  | _ => none

/-- The wire code (the `#[repr(u8)]` discriminant) of each message type. -/
def DHCPv6MessageType.code : DHCPv6MessageType → Nat
  | .Solicit => 1
  | .Advertise => 2
  | .Request => 3
  | .Confirm => 4
  | .Renew => 5
  | .Rebind => 6
  | .Reply => 7
  | .Release => 8
  | .Decline => 9
  | .Reconfigure => 10
  | .InformationRequest => 11
  | .RelayForw => 12
  | .RelayRepl => 13

/-- `parse_dhcpv6_message_type`: `map_opt(be_u8, DHCPv6MessageType::from_u8)`. -/
def parse_dhcpv6_message_type (input : List Nat) : PResult DHCPv6MessageType :=
  map_opt be_u8 DHCPv6MessageType.from_u8 input

/-! ### `src/utils.rs` -/

/-- `parse_ipv6_address`: `map(be_u128, Ipv6Addr::from)`.  The 128-bit
address value is kept as the `Nat` produced by `be_u128`. -/
def parse_ipv6_address (input : List Nat) : PResult Nat :=
  be_u128 input

/-! ### `src/structs/options.rs` — data model -/

/-- `DHCPv6Option` from `options.rs`.  Borrowed `&[u8]` slices are the
byte lists they view; the `StatusCode` message `&str` is kept as its
underlying UTF-8 bytes (the parser only builds it when they are valid
UTF-8). -/
inductive DHCPv6Option where
  | CliendID (duid : List Nat)
  | ServerID (duid : List Nat)
  | IdentityAssociationForNonTemporaryAddresses
      (id time_1 time_2 : Nat) (options : List Nat)
  | IdentityAssociationForTemporaryAddresses (id : Nat) (options : List Nat)
  | IdentityAssociationAddress
      (address prefered_lifetime valid_lifetime : Nat) (options : List Nat)
  | OptionRequest (options : List Nat)
  | Preference (pref_value : Nat)
  | ElapstedTime (elapsed_time : Nat)
  | RelayMessage (data : List Nat)
  | Authentication (protocol algorithm rdm replay_detection : Nat)
      (authentication_information : List Nat)
  | ServerUnicast (address : Nat)
  | StatusCode (code : Nat) (message : List Nat)
  | RapidCommit
  | UserClass (data : List Nat)
  | VendorClass (enterprise_number : Nat) (data : List Nat)
  | VendorSpecificInformation (enterprise_number : Nat) (data : List Nat)
  | InterfaceID (data : List Nat)
  | ReconfigureMessage (message_type : Nat)
  | ReconfigureAccept
  deriving DecidableEq, Repr

/-- Validity predicate of Rust `std::str::from_utf8`: strict UTF-8
(RFC 3629) — continuation bytes `80..BF`, no overlong encodings, no
surrogates (`ED A0..` and above), nothing beyond U+10FFFF. -/
def utf8Valid : List Nat → Bool
  | [] => true
  | b :: rest =>
      if b ≤ 0x7F then utf8Valid rest
      else if 0xC2 ≤ b ∧ b ≤ 0xDF then
        match rest with
        | c1 :: rest2 => decide (0x80 ≤ c1 ∧ c1 ≤ 0xBF) && utf8Valid rest2
        | [] => false
      else if b = 0xE0 then
        match rest with
        | c1 :: c2 :: rest2 =>
            decide (0xA0 ≤ c1 ∧ c1 ≤ 0xBF) && decide (0x80 ≤ c2 ∧ c2 ≤ 0xBF)
              && utf8Valid rest2
        | _ => false
      else if (0xE1 ≤ b ∧ b ≤ 0xEC) ∨ b = 0xEE ∨ b = 0xEF then
        match rest with
        | c1 :: c2 :: rest2 =>
            decide (0x80 ≤ c1 ∧ c1 ≤ 0xBF) && decide (0x80 ≤ c2 ∧ c2 ≤ 0xBF)
              && utf8Valid rest2
        | _ => false
      else if b = 0xED then
        match rest with
        | c1 :: c2 :: rest2 =>
            decide (0x80 ≤ c1 ∧ c1 ≤ 0x9F) && decide (0x80 ≤ c2 ∧ c2 ≤ 0xBF)
              && utf8Valid rest2
        | _ => false
      else if b = 0xF0 then
        match rest with
        | c1 :: c2 :: c3 :: rest2 =>
            decide (0x90 ≤ c1 ∧ c1 ≤ 0xBF) && decide (0x80 ≤ c2 ∧ c2 ≤ 0xBF)
              && decide (0x80 ≤ c3 ∧ c3 ≤ 0xBF) && utf8Valid rest2
        | _ => false
      else if 0xF1 ≤ b ∧ b ≤ 0xF3 then
        match rest with
        | c1 :: c2 :: c3 :: rest2 =>
            decide (0x80 ≤ c1 ∧ c1 ≤ 0xBF) && decide (0x80 ≤ c2 ∧ c2 ≤ 0xBF)
              && decide (0x80 ≤ c3 ∧ c3 ≤ 0xBF) && utf8Valid rest2
        | _ => false
      else if b = 0xF4 then
        match rest with
        | c1 :: c2 :: c3 :: rest2 =>
            decide (0x80 ≤ c1 ∧ c1 ≤ 0x8F) && decide (0x80 ≤ c2 ∧ c2 ≤ 0xBF)
              && decide (0x80 ≤ c3 ∧ c3 ≤ 0xBF) && utf8Valid rest2
        | _ => false
      else false

/-! ### `src/structs/options.rs` — per-option sub-decoders.  Each one is
entered after the 2-byte option code has been consumed and starts by
reading the 2-byte length. -/

def parse_dhcpv6_option_client_id (input : List Nat) : PResult DHCPv6Option :=
  (be_u16 input).bind fun rest len =>
    (take len rest).bind fun rest duid =>
      .ok rest (.CliendID duid)

def parse_dhcpv6_option_server_id (input : List Nat) : PResult DHCPv6Option :=
  (be_u16 input).bind fun rest len =>
    (take len rest).bind fun rest duid =>
      .ok rest (.ServerID duid)

def parse_dhcpv6_option_ia_na (input : List Nat) : PResult DHCPv6Option :=
  (verify be_u16 (fun len => decide (12 ≤ len)) input).bind fun rest len =>
    (be_u32 rest).bind fun rest id =>
      (be_u32 rest).bind fun rest time_1 =>
        (be_u32 rest).bind fun rest time_2 =>
          (take (len - 12) rest).bind fun rest options =>
            .ok rest (.IdentityAssociationForNonTemporaryAddresses id time_1 time_2 options)

def parse_dhcpv6_option_ia_ta (input : List Nat) : PResult DHCPv6Option :=
  (verify be_u16 (fun len => decide (4 ≤ len)) input).bind fun rest len =>
    (be_u32 rest).bind fun rest id =>
      (take (len - 4) rest).bind fun rest options =>
        .ok rest (.IdentityAssociationForTemporaryAddresses id options)

def parse_dhcpv6_option_ia (input : List Nat) : PResult DHCPv6Option :=
  (verify be_u16 (fun len => decide (24 ≤ len)) input).bind fun rest len =>
    (parse_ipv6_address rest).bind fun rest address =>
      (be_u32 rest).bind fun rest prefered_lifetime =>
        (be_u32 rest).bind fun rest valid_lifetime =>
          (take (len - 24) rest).bind fun rest options =>
            .ok rest (.IdentityAssociationAddress address prefered_lifetime valid_lifetime options)

/-- `parse_dhcpv6_option_option_request`: the source verifies
`len & 1 == 0` (even length) and then reads `len / 2` big-endian 16-bit
codes with `many_m_n(count, count, be_u16)`. -/
def parse_dhcpv6_option_option_request (input : List Nat) : PResult DHCPv6Option :=
  (verify be_u16 (fun len => (len &&& 1) == 0) input).bind fun rest len =>
    (many_m_n_be_u16 (len / 2) rest).bind fun rest options =>
      .ok rest (.OptionRequest options)

/-- `parse_dhcpv6_option_preference`: after verifying the length field is
1 the source reads `rest[0]` by direct index, which panics when the
payload is absent. -/
def parse_dhcpv6_option_preference (input : List Nat) : PResult DHCPv6Option :=
  (verify be_u16 (fun len => len == 1) input).bind fun rest _len =>
    match rest with
    | pref_value :: rest2 => .ok rest2 (.Preference pref_value)
    | [] => .fatal

def parse_dhcpv6_option_elapsted_time (input : List Nat) : PResult DHCPv6Option :=
  (verify be_u16 (fun len => len == 2) input).bind fun rest _len =>
    (be_u16 rest).bind fun rest elapsed_time =>
      .ok rest (.ElapstedTime elapsed_time)

def parse_dhcpv6_option_relay_message (input : List Nat) : PResult DHCPv6Option :=
  (be_u16 input).bind fun rest len =>
    (take len rest).bind fun rest data =>
      .ok rest (.RelayMessage data)

/-- `parse_dhcpv6_option_authentication`: the source reads `rest[0]`,
`rest[1]`, `rest[2]` and slices `&rest[3..]` by direct index, which
panics when fewer than 3 payload bytes are present. -/
def parse_dhcpv6_option_authentication (input : List Nat) : PResult DHCPv6Option :=
  (verify be_u16 (fun len => decide (11 ≤ len)) input).bind fun rest len =>
    match rest with
    | protocol :: algorithm :: rdm :: rest3 =>
        (be_u64 rest3).bind fun rest replay_detection =>
          (take (len - 11) rest).bind fun rest authentication_information =>
            .ok rest (.Authentication protocol algorithm rdm replay_detection
              authentication_information)
    | _ => .fatal

def parse_dhcpv6_option_server_unicast (input : List Nat) : PResult DHCPv6Option :=
  (verify be_u16 (fun len => len == 16) input).bind fun rest _len =>
    (parse_ipv6_address rest).bind fun rest address =>
      .ok rest (.ServerUnicast address)

/-- `parse_dhcpv6_option_status_code`: strict UTF-8 check via
`str::from_utf8`; invalid bytes give `ErrorKind::Verify`. -/
def parse_dhcpv6_option_status_code (input : List Nat) : PResult DHCPv6Option :=
  (verify be_u16 (fun len => decide (2 ≤ len)) input).bind fun rest len =>
    (be_u16 rest).bind fun rest code =>
      (take (len - 2) rest).bind fun rest raw_message =>
        if utf8Valid raw_message then .ok rest (.StatusCode code raw_message)
        else .error .Verify

def parse_dhcpv6_option_rapid_commit (input : List Nat) : PResult DHCPv6Option :=
  (verify be_u16 (fun len => len == 0) input).bind fun rest _len =>
    .ok rest .RapidCommit

def parse_dhcpv6_option_user_class (input : List Nat) : PResult DHCPv6Option :=
  (be_u16 input).bind fun rest len =>
    (take len rest).bind fun rest data =>
      .ok rest (.UserClass data)

def parse_dhcpv6_option_vendor_class (input : List Nat) : PResult DHCPv6Option :=
  (verify be_u16 (fun len => decide (4 ≤ len)) input).bind fun rest len =>
    (be_u32 rest).bind fun rest enterprise_number =>
      (take (len - 4) rest).bind fun rest data =>
        .ok rest (.VendorClass enterprise_number data)

def parse_dhcpv6_option_vendor_specific_information (input : List Nat) :
    PResult DHCPv6Option :=
  (verify be_u16 (fun len => decide (4 ≤ len)) input).bind fun rest len =>
    (be_u32 rest).bind fun rest enterprise_number =>
      (take (len - 4) rest).bind fun rest data =>
        .ok rest (.VendorSpecificInformation enterprise_number data)

def parse_dhcpv6_option_interface_id (input : List Nat) : PResult DHCPv6Option :=
  (be_u16 input).bind fun rest len =>
    (take len rest).bind fun rest data =>
      .ok rest (.InterfaceID data)

/-- `parse_dhcpv6_option_reconfigure_message`: reads `rest[0]` by direct
index, which panics when the payload is absent. -/
def parse_dhcpv6_option_reconfigure_message (input : List Nat) : PResult DHCPv6Option :=
  (verify be_u16 (fun len => len == 1) input).bind fun rest _len =>
    match rest with
    | message_type :: rest2 => .ok rest2 (.ReconfigureMessage message_type)
    | [] => .fatal

def parse_dhcpv6_option_reconfigure_accept (input : List Nat) : PResult DHCPv6Option :=
  (verify be_u16 (fun len => len == 0) input).bind fun rest _len =>
    .ok rest .ReconfigureAccept

/-- `parse_dhcpv6_option`: read the 2-byte option code and dispatch.  The
Rust `match` over `u16` literals 1..9, 11..20 (10 deliberately absent) is
written as the equivalent chain of equality tests; unmatched codes give
`ErrorKind::Switch`. -/
def parse_dhcpv6_option (input : List Nat) : PResult DHCPv6Option :=
  (be_u16 input).bind fun rest kind =>
    if kind = 1 then parse_dhcpv6_option_client_id rest
    else if kind = 2 then parse_dhcpv6_option_server_id rest
    else if kind = 3 then parse_dhcpv6_option_ia_na rest
    else if kind = 4 then parse_dhcpv6_option_ia_ta rest
    else if kind = 5 then parse_dhcpv6_option_ia rest
    else if kind = 6 then parse_dhcpv6_option_option_request rest
    else if kind = 7 then parse_dhcpv6_option_preference rest
    else if kind = 8 then parse_dhcpv6_option_elapsted_time rest
    else if kind = 9 then parse_dhcpv6_option_relay_message rest
    else if kind = 11 then parse_dhcpv6_option_authentication rest
    else if kind = 12 then parse_dhcpv6_option_server_unicast rest
    else if kind = 13 then parse_dhcpv6_option_status_code rest
    else if kind = 14 then parse_dhcpv6_option_rapid_commit rest
    else if kind = 15 then parse_dhcpv6_option_user_class rest
    else if kind = 16 then parse_dhcpv6_option_vendor_class rest
    else if kind = 17 then parse_dhcpv6_option_vendor_specific_information rest
    else if kind = 18 then parse_dhcpv6_option_interface_id rest
    else if kind = 19 then parse_dhcpv6_option_reconfigure_message rest
    else if kind = 20 then parse_dhcpv6_option_reconfigure_accept rest
    else .error .Switch

/-- `parse_dhcpv6_options`: `many0(parse_dhcpv6_option)` followed by the
source's `assert!(rest.len() == 0)`, which aborts the process (modelled
as `fatal`) when residual bytes remain. -/
def parse_dhcpv6_options (input : List Nat) : PResult (List DHCPv6Option) :=
  (many0 parse_dhcpv6_option input).bind fun rest options =>
    if rest.length = 0 then .ok rest options else .fatal

/-! ### `src/structs/header.rs` -/

/-- `DHCPv6Header` from `header.rs`.  The two `Ipv6Addr` fields are kept
as the 128-bit `Nat` values read by `parse_ipv6_address`. -/
inductive DHCPv6Header where
  | ClientServer (message_type : DHCPv6MessageType) (transaction_id : Nat)
      (options : List DHCPv6Option)
  | RelayAgentServer (message_type : DHCPv6MessageType) (hop_count : Nat)
      (link_address peer_address : Nat) (options : List DHCPv6Option)
  deriving DecidableEq, Repr

def parse_dhcpv6_header_client_server (input : List Nat)
    (message_type : DHCPv6MessageType) : PResult DHCPv6Header :=
  (be_u24 input).bind fun rest transaction_id =>
    (parse_dhcpv6_options rest).bind fun rest options =>
      .ok rest (.ClientServer message_type transaction_id options)

def parse_dhcpv6_header_relay_agent_server (input : List Nat)
    (message_type : DHCPv6MessageType) : PResult DHCPv6Header :=
  (be_u8 input).bind fun rest hop_count =>
    (parse_ipv6_address rest).bind fun rest link_address =>
      (parse_ipv6_address rest).bind fun rest peer_address =>
        (parse_dhcpv6_options rest).bind fun rest options =>
          .ok rest (.RelayAgentServer message_type hop_count link_address
            peer_address options)

/-- `parse_dhcpv6_header`: classify by message type, then decode the
relay-agent shape for `RelayForw`/`RelayRepl` and the client/server
shape for every other type. -/
def parse_dhcpv6_header (input : List Nat) : PResult DHCPv6Header :=
  (parse_dhcpv6_message_type input).bind fun rest message_type =>
    match message_type with
    | .RelayForw | .RelayRepl =>
        parse_dhcpv6_header_relay_agent_server rest message_type
    | _ => parse_dhcpv6_header_client_server rest message_type

/-- The message-type field of either header variant. -/
def DHCPv6Header.message_type : DHCPv6Header → DHCPv6MessageType
  | .ClientServer message_type _ _ => message_type
  | .RelayAgentServer message_type _ _ _ _ => message_type

/-- Whether a header is the `RelayAgentServer` variant. -/
def DHCPv6Header.isRelayAgentServer : DHCPv6Header → Bool
  | .ClientServer _ _ _ => false
  | .RelayAgentServer _ _ _ _ _ => true

/-- Big-endian 16-bit values of consecutive byte pairs, in wire order
(used to state the Option Request payload). -/
def beU16List : List Nat → List Nat
  | b0 :: b1 :: rest => (b0 * 256 + b1) :: beU16List rest
  | _ => []

/-! ### Helper lemmas -/

theorem PResult.bind_ok_inv {α β : Type} {p : PResult α} {f : List Nat → α → PResult β}
    {r : List Nat} {v : β} (h : p.bind f = .ok r v) :
    ∃ r' v', p = .ok r' v' ∧ f r' v' = .ok r v := by
  cases p with
  | ok r' v' => exact ⟨r', v', rfl, h⟩
  | error k => simp [PResult.bind] at h
  | fatal => simp [PResult.bind] at h

/-- `from_u8` succeeds exactly on the 13 wire codes, producing the
matching enumerant. -/
theorem from_u8_eq_some_iff (b : Nat) (t : DHCPv6MessageType) :
    DHCPv6MessageType.from_u8 b = some t ↔ 1 ≤ b ∧ b ≤ 13 ∧ t.code = b := by
  match b with
  | 0 | 1 | 2 | 3 | 4 | 5 | 6 | 7 | 8 | 9 | 10 | 11 | 12 | 13 => cases t <;> decide
  | n + 14 =>
      have h : DHCPv6MessageType.from_u8 (n + 14) = none := rfl
      rw [h]
      constructor
      · intro hc; cases hc
      · rintro ⟨_, h13, _⟩; omega

/-- A successful option-sequence decode leaves nothing behind (otherwise
the source's `assert!` fires). -/
theorem parse_dhcpv6_options_ok_rest_nil {input rest : List Nat}
    {opts : List DHCPv6Option} (h : parse_dhcpv6_options input = .ok rest opts) :
    rest = [] := by
  unfold parse_dhcpv6_options at h
  obtain ⟨r1, o1, _, h2⟩ := PResult.bind_ok_inv h
  by_cases hr : r1.length = 0
  · simp only [hr, if_pos] at h2
    cases h2
    exact List.length_eq_zero.mp hr
  · simp only [hr, if_neg, if_false] at h2
    cases h2

/-- Shape of a successful client/server header decode: the variant is
`ClientServer` with the given message type and the whole input region is
consumed. -/
theorem parse_dhcpv6_header_client_server_ok {input rest : List Nat}
    {mt : DHCPv6MessageType} {hdr : DHCPv6Header}
    (h : parse_dhcpv6_header_client_server input mt = .ok rest hdr) :
    rest = [] ∧ ∃ tid opts, hdr = .ClientServer mt tid opts := by
  unfold parse_dhcpv6_header_client_server at h
  obtain ⟨r1, tid, h1, h2⟩ := PResult.bind_ok_inv h
  obtain ⟨r2, opts, h3, h4⟩ := PResult.bind_ok_inv h2
  cases h4
  exact ⟨parse_dhcpv6_options_ok_rest_nil h3, tid, opts, rfl⟩

/-- Shape of a successful relay-agent header decode: the variant is
`RelayAgentServer` with the given message type and the whole input region
is consumed. -/
theorem parse_dhcpv6_header_relay_agent_server_ok {input rest : List Nat}
    {mt : DHCPv6MessageType} {hdr : DHCPv6Header}
    (h : parse_dhcpv6_header_relay_agent_server input mt = .ok rest hdr) :
    rest = [] ∧ ∃ hop link peer opts, hdr = .RelayAgentServer mt hop link peer opts := by
  unfold parse_dhcpv6_header_relay_agent_server at h
  obtain ⟨r1, hop, h1, h2⟩ := PResult.bind_ok_inv h
  obtain ⟨r2, link, h3, h4⟩ := PResult.bind_ok_inv h2
  obtain ⟨r3, peer, h5, h6⟩ := PResult.bind_ok_inv h4
  obtain ⟨r4, opts, h7, h8⟩ := PResult.bind_ok_inv h6
  cases h8
  exact ⟨parse_dhcpv6_options_ok_rest_nil h7, hop, link, peer, opts, rfl⟩

/-- `many_m_n(count, count, be_u16)` on a buffer holding at least
`2 * count` bytes reads exactly the first `2 * count` bytes as `count`
big-endian 16-bit values. -/
theorem many_m_n_be_u16_ok (count : Nat) (payload : List Nat)
    (h : 2 * count ≤ payload.length) :
    many_m_n_be_u16 count payload
      = .ok (payload.drop (2 * count)) (beU16List (payload.take (2 * count))) := by
  induction count generalizing payload with
  | zero => simp [many_m_n_be_u16, beU16List]
  | succ n ih =>
      match payload with
      | [] => simp at h
      | [a] => simp at h; omega
      | a :: b :: tl =>
          have h' : 2 * n ≤ tl.length := by
            simp only [List.length_cons] at h
            omega
          have h2 : 2 * (n + 1) = 2 * n + 1 + 1 := by omega
          rw [h2]
          simp only [many_m_n_be_u16, be_u16, ih tl h', List.drop_succ_cons,
            List.take_succ_cons, beU16List]

/-- `beU16List` halves the byte count. -/
theorem beU16List_length : ∀ xs : List Nat, (beU16List xs).length = xs.length / 2
  | [] => by simp [beU16List]
  | [a] => by simp [beU16List]
  | a :: b :: tl => by
      simp only [beU16List, List.length_cons, beU16List_length tl]
      omega

/-! ### Claims -/

/-- C1: the claim says every decoding operation returns a value (success
or error) and never panics, and that buffers shorter than a field's fixed
size fail with a Truncated-style error rather than aborting.  The code
violates this: after verifying only the length *field*, the Preference,
Authentication and Reconfigure Message sub-decoders index the payload
directly (`rest[0]` etc.), so a TLV whose declared payload is missing
panics (out-of-bounds index) instead of returning `Eof`/`Truncated`; the
panic propagates through `parse_dhcpv6_header`.  This theorem evaluates
the code at such failing inputs. -/
theorem claim_C1_truncated_payload_panics :
    parse_dhcpv6_option [0, 7, 0, 1] = .fatal
      ∧ parse_dhcpv6_option [0, 11, 0, 11] = .fatal
      ∧ parse_dhcpv6_option [0, 19, 0, 1] = .fatal
      ∧ parse_dhcpv6_header [1, 0, 0, 1, 0, 7, 0, 1] = .fatal := by
  decide

/-- C2: the claim says an options region whose residual bytes do not form
a complete next TLV makes `parse_dhcpv6_options` return a recoverable
`TrailingBytes` error.  The code instead enforces exact consumption with
`assert!(rest.len() == 0)`, which terminates the process: on the
one-byte region `[0x00]` the inner decoder stops with a recoverable
error, `many0` returns the residue, and the assertion aborts (modelled as
`fatal`).  The spec itself flags this assertion as the defect being
corrected. -/
theorem claim_C2_trailing_bytes_abort :
    parse_dhcpv6_options [0] = .fatal ∧ parse_dhcpv6_options [0, 1, 0] = .fatal := by
  decide

/-- C3: `parse_dhcpv6_message_type` on a non-empty buffer consumes
exactly one byte and succeeds with the enumerant whose wire code is that
byte iff the byte is in {1..13}; it fails (`MapOpt`, the spec's
`InvalidMessageType`) for byte 0 and every byte ≥ 14, and fails with
`Eof` (the spec's `Truncated`) on the empty buffer. -/
theorem claim_C3_message_type_classifier (b : Nat) (rest : List Nat) :
    (∀ t : DHCPv6MessageType,
        parse_dhcpv6_message_type (b :: rest) = .ok rest t
          ↔ 1 ≤ b ∧ b ≤ 13 ∧ t.code = b)
      ∧ (b = 0 ∨ 14 ≤ b → parse_dhcpv6_message_type (b :: rest) = .error .MapOpt)
      ∧ parse_dhcpv6_message_type [] = .error .Eof := by
  refine ⟨?_, ?_, rfl⟩
  · intro t
    cases h : DHCPv6MessageType.from_u8 b with
    | none =>
        simp only [parse_dhcpv6_message_type, map_opt, be_u8, h]
        constructor
        · intro hc; cases hc
        · intro hc
          have := (from_u8_eq_some_iff b t).mpr hc
          rw [h] at this
          cases this
    | some w =>
        simp only [parse_dhcpv6_message_type, map_opt, be_u8, h, PResult.ok.injEq,
          true_and]
        constructor
        · intro hw
          subst hw
          exact (from_u8_eq_some_iff b w).mp h
        · intro hc
          have := (from_u8_eq_some_iff b t).mpr hc
          rw [h] at this
          cases this
          rfl
  · intro hb
    have h : DHCPv6MessageType.from_u8 b = none := by
      cases hn : DHCPv6MessageType.from_u8 b with
      | none => rfl
      | some w =>
          have := (from_u8_eq_some_iff b w).mp hn
          rcases hb with hb | hb <;> omega
    simp only [parse_dhcpv6_message_type, map_opt, be_u8, h]

/-- C3 witness: byte 5 decodes to `Renew` leaving nothing, byte 14 is
rejected. -/
theorem claim_C3_witness :
    parse_dhcpv6_message_type [5] = .ok [] DHCPv6MessageType.Renew
      ∧ parse_dhcpv6_message_type [14] = .error .MapOpt :=
  ⟨((claim_C3_message_type_classifier 5 []).1 DHCPv6MessageType.Renew).mpr (by decide),
   (claim_C3_message_type_classifier 14 []).2.1 (Or.inr (by decide))⟩

/-- C5: the spec's first concrete scenario, byte for byte: message type
Solicit, 24-bit transaction id 1, a single Client ID option with DUID
`"toto"` (bytes 74 6f 74 6f), and the whole buffer consumed. -/
theorem claim_C5_concrete_solicit :
    parse_dhcpv6_header
        [0x01, 0x00, 0x00, 0x01, 0x00, 0x01, 0x00, 0x04, 0x74, 0x6f, 0x74, 0x6f]
      = .ok [] (.ClientServer .Solicit 1 [.CliendID [0x74, 0x6f, 0x74, 0x6f]]) := by
  decide

/-- C4: whenever `parse_dhcpv6_header` succeeds, the header variant is
fully determined by the decoded message type: the result is the
`RelayAgentServer` variant exactly when the type is `RelayForw` or
`RelayRepl`, and the `ClientServer` variant for every other type. -/
theorem claim_C4_variant_determined_by_type (input rest : List Nat)
    (hdr : DHCPv6Header) (hok : parse_dhcpv6_header input = .ok rest hdr) :
    hdr.isRelayAgentServer = true
      ↔ (hdr.message_type = .RelayForw ∨ hdr.message_type = .RelayRepl) := by
  unfold parse_dhcpv6_header at hok
  obtain ⟨r1, mt, h1, h2⟩ := PResult.bind_ok_inv hok
  cases mt <;>
    first
      | (obtain ⟨-, tid, opts, rfl⟩ := parse_dhcpv6_header_client_server_ok h2
         simp [DHCPv6Header.isRelayAgentServer, DHCPv6Header.message_type])
      | (obtain ⟨-, hop, link, peer, opts, rfl⟩ :=
           parse_dhcpv6_header_relay_agent_server_ok h2
         simp [DHCPv6Header.isRelayAgentServer, DHCPv6Header.message_type])

/-- C4 witness: the Solicit message of the crate's own header test
decodes to a `ClientServer` header, for which the equivalence is
instantiated concretely. -/
theorem claim_C4_witness :
    (DHCPv6Header.ClientServer .Solicit 1
        [.CliendID [0x74, 0x6f, 0x74, 0x6f]]).isRelayAgentServer = true
      ↔ ((DHCPv6Header.ClientServer .Solicit 1
            [.CliendID [0x74, 0x6f, 0x74, 0x6f]]).message_type = .RelayForw
          ∨ (DHCPv6Header.ClientServer .Solicit 1
              [.CliendID [0x74, 0x6f, 0x74, 0x6f]]).message_type = .RelayRepl) :=
  claim_C4_variant_determined_by_type
    [0x01, 0x00, 0x00, 0x01, 0x00, 0x01, 0x00, 0x04, 0x74, 0x6f, 0x74, 0x6f] []
    (DHCPv6Header.ClientServer .Solicit 1 [.CliendID [0x74, 0x6f, 0x74, 0x6f]])
    (by decide)

/-- C6: every TLV whose 2-byte option code lies outside {1..9, 11..20} —
including code 10, despite it lying inside the numeric range 1..20 — is
rejected by `parse_dhcpv6_option` with the dispatcher's `Switch` error
(the spec's `UnknownOptionCode`), never a decoded option. -/
theorem claim_C6_unknown_option_code (c0 c1 : Nat) (rest : List Nat)
    (hcode : ¬ ((1 ≤ c0 * 256 + c1 ∧ c0 * 256 + c1 ≤ 9)
        ∨ (11 ≤ c0 * 256 + c1 ∧ c0 * 256 + c1 ≤ 20))) :
    parse_dhcpv6_option (c0 :: c1 :: rest) = .error .Switch := by
  have e1 : c0 * 256 + c1 ≠ 1 := by omega
  have e2 : c0 * 256 + c1 ≠ 2 := by omega
  have e3 : c0 * 256 + c1 ≠ 3 := by omega
  have e4 : c0 * 256 + c1 ≠ 4 := by omega
  have e5 : c0 * 256 + c1 ≠ 5 := by omega
  have e6 : c0 * 256 + c1 ≠ 6 := by omega
  have e7 : c0 * 256 + c1 ≠ 7 := by omega
  have e8 : c0 * 256 + c1 ≠ 8 := by omega
  have e9 : c0 * 256 + c1 ≠ 9 := by omega
  have e11 : c0 * 256 + c1 ≠ 11 := by omega
  have e12 : c0 * 256 + c1 ≠ 12 := by omega
  have e13 : c0 * 256 + c1 ≠ 13 := by omega
  have e14 : c0 * 256 + c1 ≠ 14 := by omega
  have e15 : c0 * 256 + c1 ≠ 15 := by omega
  have e16 : c0 * 256 + c1 ≠ 16 := by omega
  have e17 : c0 * 256 + c1 ≠ 17 := by omega
  have e18 : c0 * 256 + c1 ≠ 18 := by omega
  have e19 : c0 * 256 + c1 ≠ 19 := by omega
  have e20 : c0 * 256 + c1 ≠ 20 := by omega
  simp [parse_dhcpv6_option, be_u16, PResult.bind, e1, e2, e3, e4, e5, e6, e7,
    e8, e9, e11, e12, e13, e14, e15, e16, e17, e18, e19, e20]

/-- C6 witness: the unassigned code 10 is rejected. -/
theorem claim_C6_witness : parse_dhcpv6_option [0, 10] = .error .Switch :=
  claim_C6_unknown_option_code 0 10 [] (by decide)

/-- C7: for a TLV with option code 3 (IA_NA), a declared length `L < 12`
fails the length constraint (`Verify`); for `L ≥ 12` with at least `L`
payload bytes available the decoder returns an IA_NA whose id, T1 and T2
are the first three big-endian 32-bit words of the payload, with the
following `L - 12` bytes stored raw as nested options, consuming exactly
`L` payload bytes. -/
theorem claim_C7_ia_na (l0 l1 : Nat) (payload : List Nat)
    (b0 b1 b2 b3 b4 b5 b6 b7 b8 b9 b10 b11 : Nat) (tail : List Nat) :
    (l0 * 256 + l1 < 12 →
        parse_dhcpv6_option ([0, 3, l0, l1] ++ payload) = .error .Verify)
      ∧ (12 ≤ l0 * 256 + l1 → l0 * 256 + l1 - 12 ≤ tail.length →
          parse_dhcpv6_option
              ([0, 3, l0, l1, b0, b1, b2, b3, b4, b5, b6, b7, b8, b9, b10, b11]
                ++ tail)
            = .ok (tail.drop (l0 * 256 + l1 - 12))
                (.IdentityAssociationForNonTemporaryAddresses
                  (((b0 * 256 + b1) * 256 + b2) * 256 + b3)
                  (((b4 * 256 + b5) * 256 + b6) * 256 + b7)
                  (((b8 * 256 + b9) * 256 + b10) * 256 + b11)
                  (tail.take (l0 * 256 + l1 - 12)))) := by
  constructor
  · intro hL
    have hn : ¬ 12 ≤ l0 * 256 + l1 := by omega
    simp [parse_dhcpv6_option, parse_dhcpv6_option_ia_na, be_u16, verify,
      PResult.bind, hn]
  · intro h12 hlen
    have hlen' : l0 * 256 + l1 ≤ tail.length + 12 := by omega
    simp [parse_dhcpv6_option, parse_dhcpv6_option_ia_na, be_u16, be_u32,
      verify, take, PResult.bind, h12, hlen, hlen']

/-- C7 witness: the spec's second concrete scenario (both halves of the
claim instantiated: a too-short declared length fails, and the 16-byte
IA_NA decodes to id 1, T1 0x01234567, T2 0x89abcdef and raw nested bytes
`"toto"`). -/
theorem claim_C7_witness :
    parse_dhcpv6_option [0, 3, 0, 16, 0, 0, 0, 1, 0x01, 0x23, 0x45, 0x67,
        0x89, 0xab, 0xcd, 0xef, 0x74, 0x6f, 0x74, 0x6f]
      = .ok [] (.IdentityAssociationForNonTemporaryAddresses 1 0x01234567
          0x89abcdef [0x74, 0x6f, 0x74, 0x6f])
      ∧ parse_dhcpv6_option [0, 3, 0, 11] = .error .Verify :=
  ⟨(claim_C7_ia_na 0 16 [] 0 0 0 1 0x01 0x23 0x45 0x67 0x89 0xab 0xcd 0xef
      [0x74, 0x6f, 0x74, 0x6f]).2 (by decide) (by decide),
   (claim_C7_ia_na 0 11 [] 0 0 0 0 0 0 0 0 0 0 0 0 []).1 (by decide)⟩

/-- C8: for a TLV with option code 13 (Status Code), a declared length
`L < 2` fails the length constraint (`Verify`); for `L ≥ 2` with the
payload available, the decoder reads a 2-byte big-endian code and then
`L - 2` bytes that must be valid UTF-8: valid text yields the option,
invalid text fails the whole decode (`Verify`, the spec's `InvalidText`)
instead of any lossy/replacement decoding. -/
theorem claim_C8_status_code (l0 l1 c0 c1 : Nat) (payload tail : List Nat) :
    (l0 * 256 + l1 < 2 →
        parse_dhcpv6_option ([0, 13, l0, l1] ++ payload) = .error .Verify)
      ∧ (2 ≤ l0 * 256 + l1 → l0 * 256 + l1 - 2 ≤ tail.length →
          (utf8Valid (tail.take (l0 * 256 + l1 - 2)) = true →
              parse_dhcpv6_option ([0, 13, l0, l1, c0, c1] ++ tail)
                = .ok (tail.drop (l0 * 256 + l1 - 2))
                    (.StatusCode (c0 * 256 + c1)
                      (tail.take (l0 * 256 + l1 - 2))))
            ∧ (utf8Valid (tail.take (l0 * 256 + l1 - 2)) = false →
                parse_dhcpv6_option ([0, 13, l0, l1, c0, c1] ++ tail)
                  = .error .Verify)) := by
  constructor
  · intro hL
    have hn : ¬ 2 ≤ l0 * 256 + l1 := by omega
    simp [parse_dhcpv6_option, parse_dhcpv6_option_status_code, be_u16, verify,
      PResult.bind, hn]
  · intro h2 hlen
    have hlen' : l0 * 256 + l1 ≤ tail.length + 2 := by omega
    constructor
    · intro hvalid
      simp [parse_dhcpv6_option, parse_dhcpv6_option_status_code, be_u16,
        verify, take, PResult.bind, h2, hlen', hvalid]
    · intro hinvalid
      simp [parse_dhcpv6_option, parse_dhcpv6_option_status_code, be_u16,
        verify, take, PResult.bind, h2, hlen', hinvalid]

/-- C8 witness: the spec's fourth concrete scenario (code 1, message
`"toto"`), a too-short declared length, and an invalid UTF-8 payload
(lone 0xff) that fails the decode. -/
theorem claim_C8_witness :
    parse_dhcpv6_option [0, 13, 0, 6, 0, 1, 0x74, 0x6f, 0x74, 0x6f]
        = .ok [] (.StatusCode 1 [0x74, 0x6f, 0x74, 0x6f])
      ∧ parse_dhcpv6_option [0, 13, 0, 1, 0] = .error .Verify
      ∧ parse_dhcpv6_option [0, 13, 0, 3, 0, 1, 0xff] = .error .Verify :=
  ⟨((claim_C8_status_code 0 6 0 1 [] [0x74, 0x6f, 0x74, 0x6f]).2 (by decide)
      (by decide)).1 (by decide),
   (claim_C8_status_code 0 1 0 0 [0] []).1 (by decide),
   ((claim_C8_status_code 0 3 0 1 [] [0xff]).2 (by decide) (by decide)).2
     (by decide)⟩

/-- C9: for a TLV with option code 6 (Option Request), an odd declared
length fails the parity constraint (`Verify`); an even length `L` with
`L` payload bytes available yields exactly `L / 2` big-endian 16-bit
option codes in wire order, consuming exactly `L` payload bytes (so the
whole TLV consumes `4 + L` bytes). -/
theorem claim_C9_option_request (l0 l1 : Nat) (payload : List Nat) :
    ((l0 * 256 + l1) % 2 = 1 →
        parse_dhcpv6_option ([0, 6, l0, l1] ++ payload) = .error .Verify)
      ∧ ((l0 * 256 + l1) % 2 = 0 → l0 * 256 + l1 ≤ payload.length →
          parse_dhcpv6_option ([0, 6, l0, l1] ++ payload)
              = .ok (payload.drop (l0 * 256 + l1))
                  (.OptionRequest (beU16List (payload.take (l0 * 256 + l1))))
            ∧ (beU16List (payload.take (l0 * 256 + l1))).length
                = (l0 * 256 + l1) / 2) := by
  constructor
  · intro hodd
    simp [parse_dhcpv6_option, parse_dhcpv6_option_option_request, be_u16,
      verify, PResult.bind, Nat.and_one_is_mod, hodd]
  · intro heven hlen
    have hdiv : 2 * ((l0 * 256 + l1) / 2) = l0 * 256 + l1 := by omega
    have hcount : 2 * ((l0 * 256 + l1) / 2) ≤ payload.length := by omega
    refine ⟨?_, ?_⟩
    · have hm := many_m_n_be_u16_ok ((l0 * 256 + l1) / 2) payload hcount
      rw [hdiv] at hm
      simp [parse_dhcpv6_option, parse_dhcpv6_option_option_request, be_u16,
        verify, PResult.bind, Nat.and_one_is_mod, heven, hm]
    · rw [beU16List_length, List.length_take]
      omega

/-- C9 witness: the spec's third concrete scenario (a single requested
code 0x1337) and an odd declared length that is rejected. -/
theorem claim_C9_witness :
    (parse_dhcpv6_option [0, 6, 0, 2, 0x13, 0x37]
          = .ok [] (.OptionRequest [0x1337])
        ∧ (beU16List [0x13, 0x37]).length = 1)
      ∧ parse_dhcpv6_option [0, 6, 0, 3, 0, 0, 0] = .error .Verify :=
  ⟨(claim_C9_option_request 0 2 [0x13, 0x37]).2 (by decide) (by decide),
   (claim_C9_option_request 0 3 [0, 0, 0]).1 (by decide)⟩

/-- C10: whenever `parse_dhcpv6_header` succeeds, the unconsumed rest it
returns is empty — the option sequence runs to the end of the message —
and the empty options region decodes successfully to the empty option
list. -/
theorem claim_C10_success_consumes_everything (input rest : List Nat)
    (hdr : DHCPv6Header) (hok : parse_dhcpv6_header input = .ok rest hdr) :
    rest = [] ∧ parse_dhcpv6_options [] = .ok [] [] := by
  refine ⟨?_, by decide⟩
  unfold parse_dhcpv6_header at hok
  obtain ⟨r1, mt, h1, h2⟩ := PResult.bind_ok_inv hok
  cases mt <;>
    first
      | exact (parse_dhcpv6_header_client_server_ok h2).1
      | exact (parse_dhcpv6_header_relay_agent_server_ok h2).1

/-- C10 witness: an options-free Solicit message decodes with empty
rest. -/
theorem claim_C10_witness :
    ([] : List Nat) = [] ∧ parse_dhcpv6_options [] = .ok [] [] :=
  claim_C10_success_consumes_everything [1, 0, 0, 1] []
    (DHCPv6Header.ClientServer .Solicit 1 []) (by decide)

end DHCPv6
